import Mathlib

/-!
Verification of the ErgoLab inventory stock ledger and warehouse-transfer
engine (backend/app/api/inventory.py, backend/app/api/transfers.py,
backend/app/api/analytics.py, backend/app/schemas, backend/app/models).

The relational state is embedded shallowly: tables become lists of rows,
SQLAlchemy sessions become explicit state passing, and an HTTP handler
becomes a function from a database state and a request to a response, a
resulting (committed) database state, and a trace of commit/cache effects.
A handler that raises an HTTPException before `db.commit()` leaves the
database unchanged (the session from `get_db` in core/database.py is closed
without commit, discarding all pending changes), so the error branches
return the original state.

Python integers are unbounded, so ids and quantities are embedded as `Int`.
-/

set_option autoImplicit false

namespace ErgoLab

/-- The transaction_type enum of app/models/inventory.py (TransactionType). -/
inductive TransactionType where
  | PURCHASE
  | TRANSFER_OUT
  | TRANSFER_IN
  | CONSUMPTION
  | RETURN
  | ADJUSTMENT
  deriving DecidableEq, Repr

/-- The transfer status enum of app/models/transfer.py (TransferStatus). -/
inductive TransferStatus where
  | PENDING
  | IN_TRANSIT
  | COMPLETED
  | CANCELLED
  deriving DecidableEq, Repr

/-- Error outcomes of the HTTP handlers, named per the spec's taxonomy.
`validationError` is the FastAPI/pydantic request-validation rejection
(422) from app/schemas/inventory.py; `storageFailure` is an integrity
failure raised by the database at commit time (unhandled, 5xx). -/
inductive ApiError where
  | notFound
  | insufficientStock
  | alreadyCompleted
  | validationError
  | storageFailure
  deriving DecidableEq, Repr

/-- HTTP status code each error is surfaced with. -/
def ApiError.httpStatus : ApiError → Nat
  | .notFound => 404
  | .insufficientStock => 400
  | .alreadyCompleted => 400
  | .validationError => 422
  | .storageFailure => 500

/-- A row of the inventory_stocks table (app/models/inventory.py,
InventoryStock): current quantity for one (warehouse, material) pair.
The table has UniqueConstraint("warehouse_id", "material_id"). -/
structure InventoryStock where
  warehouse_id : Int
  material_id : Int
  quantity : Int
  deriving DecidableEq, Repr

/-- A row of the stock_transactions ledger table (app/models/inventory.py,
StockTransaction). Cost, notes, user and timestamp columns do not affect
any stock computation and are omitted. -/
structure StockTransaction where
  warehouse_id : Int
  material_id : Int
  transaction_type : TransactionType
  quantity : Int
  reference_id : Option Int
  deriving DecidableEq, Repr

/-- A row of the materials table, restricted to the columns the stock
engine reads (app/models/material.py: id, min_stock_level with default 0). -/
structure Material where
  id : Int
  min_stock_level : Int
  deriving DecidableEq, Repr

/-- A row of the transfer_items table (app/models/transfer.py, TransferItem). -/
structure TransferItem where
  material_id : Int
  quantity : Int
  deriving DecidableEq, Repr

/-- A row of the transfers table together with its items relationship
(app/models/transfer.py, Transfer). Timestamp and notes columns are
omitted; they do not affect stock movement. -/
structure Transfer where
  id : Int
  transfer_number : String
  from_warehouse_id : Int
  to_warehouse_id : Int
  status : TransferStatus
  items : List TransferItem
  deriving DecidableEq, Repr

/-- A row of the alerts table, restricted to the columns the low-stock
dedup logic reads and writes (app/models/analytics.py, Alert; the title
and message display strings are omitted). `is_resolved` is 0/1 in the
source, embedded as Bool. -/
structure Alert where
  alert_type : String
  severity : String
  entity_type : String
  entity_id : Int
  is_resolved : Bool
  deriving DecidableEq, Repr

/-- The committed relational state the stock engine reads and writes.
Warehouses are represented by their ids (the engine only checks
existence). -/
structure DBState where
  warehouses : List Int
  materials : List Material
  stocks : List InventoryStock
  ledger : List StockTransaction
  transfers : List Transfer
  alerts : List Alert
  deriving DecidableEq, Repr

/-- Observable side effects of a handler, in program order: the database
commit and the cache invalidations issued through app/core/cache.py. -/
inductive Effect where
  | commit
  | cacheDelete (key : String)
  | cacheClearPattern (pat : String)
  deriving DecidableEq, Repr

/-- True for cache-invalidation effects (delete or clear_pattern). -/
def Effect.isCacheInvalidation : Effect → Bool
  | .commit => false
  | .cacheDelete _ => true
  | .cacheClearPattern _ => true

/-- CacheKeys.inventory_warehouse from app/core/cache.py. -/
def CacheKeys.inventory_warehouse (warehouse_id : Int) : String :=
  "inventory:warehouse:" ++ toString warehouse_id

/-- CacheKeys.inventory_low_stock from app/core/cache.py. -/
def CacheKeys.inventory_low_stock : String :=
  "inventory:low-stock"

/-- db.query(InventoryStock).filter(warehouse_id == w, material_id == m).first():
the first stock row for the pair. -/
def findStock (stocks : List InventoryStock) (w m : Int) : Option InventoryStock :=
  stocks.find? (fun r => r.warehouse_id == w && r.material_id == m)

/-- Current quantity of a pair, reading 0 when no row exists (a missing row
and a quantity-0 row behave identically for quantity arithmetic; row
existence itself is observed through `findStock`). -/
def stockQty (stocks : List InventoryStock) (w m : Int) : Int :=
  match findStock stocks w m with
  | some r => r.quantity
  | none => 0

/-- Mutating `stock.quantity` on the ORM object returned by `.first()`:
the first row matching the pair has its quantity replaced by
`f quantity`; if no row matches, nothing changes. -/
def updateStockQty (stocks : List InventoryStock) (w m : Int) (f : Int → Int) :
    List InventoryStock :=
  match stocks with
  | [] => []
  | r :: rest =>
    if r.warehouse_id == w && r.material_id == m then
      ⟨r.warehouse_id, r.material_id, f r.quantity⟩ :: rest
    else
      r :: updateStockQty rest w m f

/-- The lazy-creation step of create_stock_transaction: if no stock row
exists for the pair, a fresh row with quantity 0 is added (then mutated by
the handler in the same session and inserted at commit). -/
def ensureStock (stocks : List InventoryStock) (w m : Int) : List InventoryStock :=
  match findStock stocks w m with
  | some _ => stocks
  | none => stocks ++ [⟨w, m, 0⟩]

/-- The request body of POST /api/inventory/transaction
(app/schemas/inventory.py, StockTransactionCreate); unit_cost and notes do
not affect stock state and are omitted. -/
structure StockTransactionCreate where
  warehouse_id : Int
  material_id : Int
  transaction_type : TransactionType
  quantity : Int
  deriving DecidableEq, Repr

/-- The pydantic validation of StockTransactionCreate: Field(gt=0) on
warehouse_id, material_id and quantity, and the validate_quantity
field_validator rejecting quantity ≤ 0 and quantity > 999999999. -/
def StockTransactionCreate.valid (t : StockTransactionCreate) : Bool :=
  t.warehouse_id > 0 && t.material_id > 0 &&
    t.quantity > 0 && t.quantity ≤ 999999999

/-- Result of a stock-transaction request: the HTTP response (new_quantity
on success), the committed database state, and the effect trace. -/
structure TxnResult where
  response : Except ApiError Int
  state : DBState
  effects : List Effect
  deriving Repr

/-- The effect trace of a successful stock transaction, in program order:
db.commit(), then cache.delete of the warehouse inventory key, then
cache.delete of the low-stock key, then clear_pattern of inventory:* and
dashboard:*. -/
def txnEffects (warehouse_id : Int) : List Effect :=
  [.commit,
   .cacheDelete (CacheKeys.inventory_warehouse warehouse_id),
   .cacheDelete CacheKeys.inventory_low_stock,
   .cacheClearPattern "inventory:*",
   .cacheClearPattern "dashboard:*"]

/-- The per-kind quantity rule of create_stock_transaction, acting on the
current quantity `cur` of the (lazily created) stock row: PURCHASE,
TRANSFER_IN and RETURN add the requested quantity; TRANSFER_OUT and
CONSUMPTION first check `current_qty < transaction.quantity` (raising
Insufficient stock) and subtract; ADJUSTMENT sets the quantity to the
requested value outright. Returns the new quantity of the row. -/
def applyKind (kind : TransactionType) (cur q : Int) : Except ApiError Int :=
  match kind with
  | .PURCHASE | .TRANSFER_IN | .RETURN => .ok (cur + q)
  | .TRANSFER_OUT | .CONSUMPTION =>
    if cur < q then .error .insufficientStock else .ok (cur - q)
  | .ADJUSTMENT => .ok q

/-- POST /api/inventory/transaction (create_stock_transaction in
app/api/inventory.py): checks warehouse and material existence (404),
lazily creates the stock row (quantity 0), applies the quantity rule of
the transaction kind to the row's current quantity, appends one ledger
entry with no reference_id, commits, then invalidates the warehouse
inventory key, the low-stock key, and the inventory:* and dashboard:*
patterns. A failed insufficiency check raises before commit, discarding
the session, so the state is unchanged. The low-stock branch that follows
the commit only sends email/FCM notifications; it writes no table. The
response carries the row's new quantity. -/
def create_stock_transaction (s : DBState) (t : StockTransactionCreate) : TxnResult :=
  if s.warehouses.contains t.warehouse_id = false then
    ⟨.error .notFound, s, []⟩
  else if (s.materials.find? (fun m => m.id == t.material_id)).isNone then
    ⟨.error .notFound, s, []⟩
  else
    match applyKind t.transaction_type
        (stockQty s.stocks t.warehouse_id t.material_id) t.quantity with
    | .error e => ⟨.error e, s, []⟩
    | .ok newq =>
      let stocks1 :=
        updateStockQty (ensureStock s.stocks t.warehouse_id t.material_id)
          t.warehouse_id t.material_id (fun _ => newq)
      let entry : StockTransaction :=
        ⟨t.warehouse_id, t.material_id, t.transaction_type, t.quantity, none⟩
      ⟨.ok newq,
        ⟨s.warehouses, s.materials, stocks1, s.ledger ++ [entry],
          s.transfers, s.alerts⟩,
        txnEffects t.warehouse_id⟩

/-- The HTTP endpoint including FastAPI request validation: an invalid body
is rejected with 422 before the handler runs, so no state changes. -/
def api_create_stock_transaction (s : DBState) (t : StockTransactionCreate) : TxnResult :=
  if t.valid then create_stock_transaction s t else ⟨.error .validationError, s, []⟩

/-- One item of the POST /api/transfers request body
(app/schemas/transfer.py, TransferItemCreate). The schema declares plain
ints: no positivity constraint. -/
structure TransferItemCreate where
  material_id : Int
  quantity : Int
  deriving DecidableEq, Repr

/-- The POST /api/transfers request body (app/schemas/transfer.py,
TransferCreate). The items list carries no non-emptiness constraint and
there is no validator comparing the two warehouse ids. -/
structure TransferCreate where
  from_warehouse_id : Int
  to_warehouse_id : Int
  items : List TransferItemCreate
  deriving DecidableEq, Repr

/-- Zero-padding of the transfer sequence number to 5 digits
(the {count + 1:05d} format spec). -/
def pad5 (n : Nat) : String :=
  let s := toString n
  String.mk (List.replicate (5 - s.length) '0') ++ s

/-- Result of a transfer-creation request: the created transfer on
success, and the committed database state. -/
structure CreateTransferResult where
  response : Except ApiError Transfer
  state : DBState
  deriving Repr

/-- POST /api/transfers (create_transfer in app/api/transfers.py): checks
that both warehouses exist (404 otherwise), allocates the transfer number
from the current row count and the current year, and persists the
transfer with its items in PENDING status. No other validation is
performed. `year` stands for datetime.utcnow().year and `newId` for the
autoincrement id the database assigns. -/
def create_transfer (s : DBState) (p : TransferCreate) (year : Nat) (newId : Int) :
    CreateTransferResult :=
  if s.warehouses.contains p.from_warehouse_id = false then
    ⟨.error .notFound, s⟩
  else if s.warehouses.contains p.to_warehouse_id = false then
    ⟨.error .notFound, s⟩
  else
    let count := s.transfers.length
    let number := "TR-" ++ toString year ++ "-" ++ pad5 (count + 1)
    let transfer : Transfer :=
      ⟨newId, number, p.from_warehouse_id, p.to_warehouse_id, .PENDING,
        p.items.map (fun i => ⟨i.material_id, i.quantity⟩)⟩
    ⟨.ok transfer,
      ⟨s.warehouses, s.materials, s.stocks, s.ledger,
        s.transfers ++ [transfer], s.alerts⟩⟩

/-- db.query(Transfer).filter(Transfer.id == transfer_id).first(). -/
def findTransfer (transfers : List Transfer) (transfer_id : Int) : Option Transfer :=
  transfers.find? (fun tr => tr.id == transfer_id)

/-- Setting transfer.status = COMPLETED on the ORM object found by id. -/
def markCompleted (transfers : List Transfer) (transfer_id : Int) : List Transfer :=
  match transfers with
  | [] => []
  | tr :: rest =>
    if tr.id == transfer_id then
      ⟨tr.id, tr.transfer_number, tr.from_warehouse_id, tr.to_warehouse_id,
        .COMPLETED, tr.items⟩ :: rest
    else tr :: markCompleted rest transfer_id

/-- The pair of ledger entries complete_transfer appends for one item: a
TRANSFER_OUT on the source and a TRANSFER_IN on the destination, both with
reference_id = transfer id. -/
def transferLedgerPair (from_wh to_wh transfer_id : Int) (item : TransferItem) :
    List StockTransaction :=
  [⟨from_wh, item.material_id, .TRANSFER_OUT, item.quantity, some transfer_id⟩,
   ⟨to_wh, item.material_id, .TRANSFER_IN, item.quantity, some transfer_id⟩]

/-- The per-item loop of complete_transfer, with the session semantics of
`SessionLocal` (autoflush=False): queries see committed rows (with
in-session attribute updates through the identity map), but rows added
with db.add and not yet flushed are invisible to later queries. `stocks`
holds the loaded committed rows, `pending` the rows created by db.add for
missing destination stock, `ledger` the accumulating ledger inserts.
Returns none when an item has no source row or insufficient source
quantity (the handler then raises InsufficientStock before commit). -/
def completeLoop (from_wh to_wh transfer_id : Int) :
    List TransferItem → List InventoryStock → List InventoryStock →
      List StockTransaction →
      Option (List InventoryStock × List InventoryStock × List StockTransaction)
  | [], stocks, pending, ledger => some (stocks, pending, ledger)
  | item :: rest, stocks, pending, ledger =>
    match findStock stocks from_wh item.material_id with
    | none => none
    | some from_stock =>
      if from_stock.quantity < item.quantity then none
      else
        let ledger1 := ledger ++ transferLedgerPair from_wh to_wh transfer_id item
        match findStock stocks to_wh item.material_id with
        | some _ =>
          let stocks1 := updateStockQty stocks from_wh item.material_id
            (fun q => q - item.quantity)
          let stocks2 := updateStockQty stocks1 to_wh item.material_id
            (fun q => q + item.quantity)
          completeLoop from_wh to_wh transfer_id rest stocks2 pending ledger1
        | none =>
          let stocks1 := updateStockQty stocks from_wh item.material_id
            (fun q => q - item.quantity)
          completeLoop from_wh to_wh transfer_id rest stocks1
            (pending ++ [⟨to_wh, item.material_id, item.quantity⟩]) ledger1

/-- Whether a list of stock rows has pairwise distinct
(warehouse_id, material_id) keys; at commit the database enforces
UniqueConstraint("warehouse_id", "material_id") over the inserted rows. -/
def keysDistinct : List InventoryStock → Bool
  | [] => true
  | r :: rest =>
    (rest.any (fun r2 => r2.warehouse_id == r.warehouse_id &&
      r2.material_id == r.material_id)) = false && keysDistinct rest

/-- Result of a transfer-completion request. -/
structure CompleteResult where
  response : Except ApiError Unit
  state : DBState
  effects : List Effect
  deriving Repr

/-- PUT /api/transfers/{id}/complete (complete_transfer in
app/api/transfers.py): 404 when the transfer does not exist, 400
AlreadyCompleted when its status is COMPLETED, then the per-item
check-and-move loop; any failing item raises before commit, discarding
the session, so the state is unchanged. On success the pending stock rows
are inserted at commit — if two of them collide on the unique
(warehouse_id, material_id) constraint the commit itself fails (5xx,
nothing persisted). The handler performs no cache invalidation. -/
def complete_transfer (s : DBState) (transfer_id : Int) : CompleteResult :=
  match findTransfer s.transfers transfer_id with
  | none => ⟨.error .notFound, s, []⟩
  | some transfer =>
    if transfer.status == TransferStatus.COMPLETED then
      ⟨.error .alreadyCompleted, s, []⟩
    else
      match completeLoop transfer.from_warehouse_id transfer.to_warehouse_id
          transfer.id transfer.items s.stocks [] s.ledger with
      | none => ⟨.error .insufficientStock, s, []⟩
      | some (stocks1, pending, ledger1) =>
        if keysDistinct pending then
          ⟨.ok (),
            ⟨s.warehouses, s.materials, stocks1 ++ pending, ledger1,
              markCompleted s.transfers transfer_id, s.alerts⟩,
            [.commit]⟩
        else
          ⟨.error .storageFailure, s, []⟩

/-- Whether an unresolved low_stock alert for the material exists — the
dedup query of generate_low_stock_alerts (entity_type 'material',
alert_type 'low_stock', is_resolved == 0). -/
def hasUnresolvedLowStock (alerts : List Alert) (material_id : Int) : Bool :=
  alerts.any (fun a => a.entity_type == "material" && a.entity_id == material_id &&
    a.alert_type == "low_stock" && a.is_resolved == false)

/-- The join of POST /api/analytics/alerts/generate-low-stock: stock rows
inner-joined with their material and warehouse, filtered to
quantity ≤ min_stock_level. -/
def lowStockRows (s : DBState) : List (InventoryStock × Material) :=
  s.stocks.filterMap (fun st =>
    match s.materials.find? (fun m => m.id == st.material_id) with
    | some m =>
      if s.warehouses.contains st.warehouse_id then
        if st.quantity ≤ m.min_stock_level then some (st, m) else none
      else none
    | none => none)

/-- Result of the low-stock alert sweep. -/
structure SweepResult where
  state : DBState
  alerts_created : Nat
  total_low_stock_items : Nat
  deriving Repr

/-- POST /api/analytics/alerts/generate-low-stock (generate_low_stock_alerts
in app/api/analytics.py): for every low-stock row whose material has no
unresolved low_stock alert, adds a new alert (severity critical when the
quantity is exactly 0, else warning). With autoflush=False the dedup query
sees only the alerts committed before the sweep, so every row is checked
against the initial alert list. -/
def generate_low_stock_alerts (s : DBState) : SweepResult :=
  let low := lowStockRows s
  let newAlerts : List Alert := low.filterMap (fun p =>
    if hasUnresolvedLowStock s.alerts p.2.id then none
    else
      some ⟨"low_stock", if p.1.quantity == 0 then "critical" else "warning",
        "material", p.2.id, false⟩)
  ⟨⟨s.warehouses, s.materials, s.stocks, s.ledger, s.transfers,
      s.alerts ++ newAlerts⟩,
    newAlerts.length, low.length⟩

/-- The signed effective delta of a ledger entry, as the spec's
reconciliation invariant defines it: addition for
purchase/transfer_in/return, subtraction for transfer_out/consumption;
the spec assigns adjustment entries no delta (§9 flags adjustment as the
open reconciliation question), so they contribute 0. -/
def signedDelta (e : StockTransaction) : Int :=
  match e.transaction_type with
  | .PURCHASE | .TRANSFER_IN | .RETURN => e.quantity
  | .TRANSFER_OUT | .CONSUMPTION => -e.quantity
  | .ADJUSTMENT => 0

/-- Sum of the signed effective deltas of the ledger entries recorded for
one (warehouse, material) pair. -/
def ledgerSum (ledger : List StockTransaction) (w m : Int) : Int :=
  ((ledger.filter (fun e => e.warehouse_id == w && e.material_id == m)).map
    signedDelta).sum

/-- The reconciliation invariant: every pair's current quantity equals the
signed sum of its ledger entries. -/
def reconciled (s : DBState) : Prop :=
  ∀ w m : Int, stockQty s.stocks w m = ledgerSum s.ledger w m

/-- Applying a sequence of stock-transaction requests through the endpoint;
a request that fails leaves the state unchanged, as in the service. -/
def applyTxns (s : DBState) : List StockTransactionCreate → DBState
  | [] => s
  | t :: ts => applyTxns (create_stock_transaction s t).state ts

/-- Whether an alert is an open (unresolved) low_stock alert for the given
material. -/
def isOpenLowStockFor (material_id : Int) (a : Alert) : Bool :=
  a.entity_type == "material" && a.entity_id == material_id &&
    a.alert_type == "low_stock" && a.is_resolved == false

/-- Total quantity the items of a transfer request move for one material. -/
def itemsQty (items : List TransferItem) (m : Int) : Int :=
  ((items.filter (fun i => i.material_id == m)).map (fun i => i.quantity)).sum

/-- Sample state: warehouse 1 and material 1 exist, no stock rows, empty
ledger (trivially reconciled). -/
def sampleEmpty : DBState :=
  ⟨[1], [⟨1, 0⟩], [], [], [], []⟩

/-- Sample state: warehouses 1 and 2, material 1 with min_stock_level 10,
and 100 units of material 1 in warehouse 1. -/
def sampleBase : DBState :=
  ⟨[1, 2], [⟨1, 10⟩], [⟨1, 1, 100⟩], [], [], []⟩

/-- Sample state: a pending transfer (id 7) of 50 units of material 1 from
warehouse 1 (holding 70) to warehouse 2. -/
def samplePending : DBState :=
  ⟨[1, 2], [⟨1, 0⟩], [⟨1, 1, 70⟩], [],
    [⟨7, "TR-2026-00001", 1, 2, .PENDING, [⟨1, 50⟩]⟩], []⟩

/-- Sample state: a pending transfer (id 7) of 80 units of material 1 from
warehouse 1, which only holds 70. -/
def sampleShort : DBState :=
  ⟨[1, 2], [⟨1, 0⟩], [⟨1, 1, 70⟩], [],
    [⟨7, "TR-2026-00001", 1, 2, .PENDING, [⟨1, 80⟩]⟩], []⟩

/-- Sample state: transfer 7 already completed. -/
def sampleCompleted : DBState :=
  ⟨[1, 2], [⟨1, 0⟩], [⟨1, 1, 20⟩, ⟨2, 1, 50⟩], [],
    [⟨7, "TR-2026-00001", 1, 2, .COMPLETED, [⟨1, 50⟩]⟩], []⟩

/-- Sample state: a pending transfer whose first item has a negative
quantity (transfer creation never validates item quantities) followed by
an item exceeding the source stock of 50. -/
def sampleNegativeItems : DBState :=
  ⟨[1, 2], [⟨1, 0⟩], [⟨1, 1, 50⟩, ⟨2, 1, 0⟩], [],
    [⟨7, "TR-2026-00001", 1, 2, .PENDING, [⟨1, -100⟩, ⟨1, 60⟩]⟩], []⟩

/-- Sample state: a pending transfer whose source and destination are the
same warehouse (creation never validates distinctness), with 50 units on
hand and one item of 30. -/
def sampleSelfTransfer : DBState :=
  ⟨[1], [⟨1, 0⟩], [⟨1, 1, 50⟩], [],
    [⟨7, "TR-2026-00001", 1, 1, .PENDING, [⟨1, 30⟩]⟩], []⟩

/-- Sample state: a pending transfer carrying two items of the same
material (creation never validates duplicates), with 100 units at the
source and a destination row of 0. -/
def sampleDupItems : DBState :=
  ⟨[1, 2], [⟨1, 0⟩], [⟨1, 1, 100⟩, ⟨2, 1, 0⟩], [],
    [⟨8, "TR-2026-00002", 1, 2, .PENDING, [⟨1, 30⟩, ⟨1, 20⟩]⟩], []⟩

/-- Sample state: 40 units of material 1 (min_stock_level 10) in
warehouse 1, no alerts. -/
def sampleLow : DBState :=
  ⟨[1], [⟨1, 10⟩], [⟨1, 1, 40⟩], [], [], []⟩

/-- Sample state: material 1 already below its minimum with an open
low_stock alert. -/
def sampleAlertOpen : DBState :=
  ⟨[1], [⟨1, 10⟩], [⟨1, 1, 5⟩], [], [],
    [⟨"low_stock", "warning", "material", 1, false⟩]⟩

section StockLemmas

variable (w m w1 m1 : Int) (f : Int → Int)

theorem findStock_cons_pos (r : InventoryStock) (l : List InventoryStock)
    (h : (r.warehouse_id == w && r.material_id == m) = true) :
    findStock (r :: l) w m = some r := by
  simp only [findStock]
  exact List.find?_cons_of_pos l h

theorem findStock_cons_neg (r : InventoryStock) (l : List InventoryStock)
    (h : (r.warehouse_id == w && r.material_id == m) = false) :
    findStock (r :: l) w m = findStock l w m := by
  simp only [findStock]
  exact List.find?_cons_of_neg l (by simp [h])

theorem findStock_fields (l : List InventoryStock) (r : InventoryStock)
    (h : findStock l w m = some r) : r.warehouse_id = w ∧ r.material_id = m := by
  have hp := List.find?_some h
  simp only [Bool.and_eq_true, beq_iff_eq] at hp
  exact hp

theorem stockQty_eq_of_findStock (l : List InventoryStock) (r : InventoryStock)
    (h : findStock l w m = some r) : stockQty l w m = r.quantity := by
  simp [stockQty, h]

theorem stockQty_eq_zero_of_none (l : List InventoryStock)
    (h : findStock l w m = none) : stockQty l w m = 0 := by
  simp [stockQty, h]

theorem updateStockQty_cons_pos (r : InventoryStock) (rest : List InventoryStock)
    (h : (r.warehouse_id == w && r.material_id == m) = true) :
    updateStockQty (r :: rest) w m f =
      ⟨r.warehouse_id, r.material_id, f r.quantity⟩ :: rest := by
  simp [updateStockQty, h]

theorem updateStockQty_cons_neg (r : InventoryStock) (rest : List InventoryStock)
    (h : (r.warehouse_id == w && r.material_id == m) = false) :
    updateStockQty (r :: rest) w m f = r :: updateStockQty rest w m f := by
  simp [updateStockQty, h]

theorem findStock_updateStockQty_self (l : List InventoryStock) :
    findStock (updateStockQty l w m f) w m =
      (findStock l w m).map
        (fun r => ⟨r.warehouse_id, r.material_id, f r.quantity⟩) := by
  induction l with
  | nil => rfl
  | cons r rest ih =>
    by_cases h : (r.warehouse_id == w && r.material_id == m) = true
    · rw [findStock_cons_pos w m r rest h, updateStockQty_cons_pos w m f r rest h,
        findStock_cons_pos w m _ rest (by simpa using h)]
      rfl
    · have h0 : (r.warehouse_id == w && r.material_id == m) = false := by
        simpa using h
      rw [findStock_cons_neg w m r rest h0, updateStockQty_cons_neg w m f r rest h0,
        findStock_cons_neg w m r _ h0]
      exact ih

theorem key_mismatch (r : InventoryStock)
    (hw : r.warehouse_id = w) (hm : r.material_id = m)
    (hne : w1 ≠ w ∨ m1 ≠ m) :
    (r.warehouse_id == w1 && r.material_id == m1) = false := by
  rcases hne with hne | hne
  · have h1 : (r.warehouse_id == w1) = false := by
      simp only [hw, beq_eq_false_iff_ne]
      exact fun hh => hne hh.symm
    simp [h1]
  · have h1 : (r.material_id == m1) = false := by
      simp only [hm, beq_eq_false_iff_ne]
      exact fun hh => hne hh.symm
    simp [h1]

theorem findStock_updateStockQty_ne (l : List InventoryStock)
    (hne : w1 ≠ w ∨ m1 ≠ m) :
    findStock (updateStockQty l w m f) w1 m1 = findStock l w1 m1 := by
  induction l with
  | nil => rfl
  | cons r rest ih =>
    by_cases h : (r.warehouse_id == w && r.material_id == m) = true
    · rw [updateStockQty_cons_pos w m f r rest h]
      have hf := (Bool.and_eq_true _ _).mp h
      simp only [beq_iff_eq] at hf
      have hr := key_mismatch w m w1 m1 r hf.1 hf.2 hne
      rw [findStock_cons_neg w1 m1 _ rest (by simpa using hr),
        findStock_cons_neg w1 m1 r rest hr]
    · rw [updateStockQty_cons_neg w m f r rest (by simpa using h)]
      by_cases hr : (r.warehouse_id == w1 && r.material_id == m1) = true
      · rw [findStock_cons_pos w1 m1 r _ hr, findStock_cons_pos w1 m1 r rest hr]
      · rw [findStock_cons_neg w1 m1 r _ (by simpa using hr),
          findStock_cons_neg w1 m1 r rest (by simpa using hr)]
        exact ih

theorem stockQty_updateStockQty_self (l : List InventoryStock)
    (h : (findStock l w m).isSome = true) :
    stockQty (updateStockQty l w m f) w m = f (stockQty l w m) := by
  rcases Option.isSome_iff_exists.mp h with ⟨r, hr⟩
  rw [stockQty_eq_of_findStock w m l r hr]
  have := findStock_updateStockQty_self w m f l
  rw [hr] at this
  simp only [Option.map_some'] at this
  rw [stockQty_eq_of_findStock w m _ _ this]

theorem stockQty_updateStockQty_ne (l : List InventoryStock)
    (hne : w1 ≠ w ∨ m1 ≠ m) :
    stockQty (updateStockQty l w m f) w1 m1 = stockQty l w1 m1 := by
  simp [stockQty, findStock_updateStockQty_ne w m w1 m1 f l hne]

theorem findStock_updateStockQty_isSome (l : List InventoryStock) :
    (findStock (updateStockQty l w m f) w1 m1).isSome =
      (findStock l w1 m1).isSome := by
  by_cases hne : w1 = w ∧ m1 = m
  · rcases hne with ⟨hw, hm⟩
    subst hw; subst hm
    rw [findStock_updateStockQty_self w1 m1 f l]
    cases findStock l w1 m1 <;> rfl
  · rw [findStock_updateStockQty_ne w m w1 m1 f l (by tauto)]

theorem findStock_append (l1 l2 : List InventoryStock) :
    findStock (l1 ++ l2) w m =
      (findStock l1 w m).or (findStock l2 w m) := by
  induction l1 with
  | nil => rfl
  | cons r rest ih =>
    by_cases h : (r.warehouse_id == w && r.material_id == m) = true
    · rw [List.cons_append, findStock_cons_pos w m r _ h,
        findStock_cons_pos w m r rest h]
      rfl
    · rw [List.cons_append, findStock_cons_neg w m r _ (by simpa using h),
        findStock_cons_neg w m r rest (by simpa using h)]
      exact ih

theorem findStock_ensureStock_self (l : List InventoryStock) :
    findStock (ensureStock l w m) w m = some ⟨w, m, stockQty l w m⟩ := by
  unfold ensureStock
  cases h : findStock l w m with
  | some r =>
    rcases findStock_fields w m l r h with ⟨hw, hm⟩
    rw [h, stockQty_eq_of_findStock w m l r h]
    cases r
    simp only at hw hm
    subst hw; subst hm
    rfl
  | none =>
    rw [findStock_append w m l [⟨w, m, 0⟩], h,
      stockQty_eq_zero_of_none w m l h]
    rw [findStock_cons_pos w m ⟨w, m, 0⟩ [] (by simp)]
    rfl

theorem findStock_ensureStock_ne (l : List InventoryStock)
    (hne : w1 ≠ w ∨ m1 ≠ m) :
    findStock (ensureStock l w m) w1 m1 = findStock l w1 m1 := by
  unfold ensureStock
  cases h : findStock l w m with
  | some r => rfl
  | none =>
    rw [findStock_append w1 m1 l [⟨w, m, 0⟩]]
    have : findStock [(⟨w, m, 0⟩ : InventoryStock)] w1 m1 = none := by
      rw [findStock_cons_neg w1 m1 _ [] (key_mismatch w m w1 m1 ⟨w, m, 0⟩ rfl rfl hne)]
      rfl
    rw [this]
    cases findStock l w1 m1 <;> rfl

theorem stockQty_ensureStock_self (l : List InventoryStock) :
    stockQty (ensureStock l w m) w m = stockQty l w m := by
  rw [stockQty, findStock_ensureStock_self w m l]

theorem stockQty_ensureStock_ne (l : List InventoryStock)
    (hne : w1 ≠ w ∨ m1 ≠ m) :
    stockQty (ensureStock l w m) w1 m1 = stockQty l w1 m1 := by
  rw [stockQty, findStock_ensureStock_ne w m w1 m1 l hne, stockQty]

end StockLemmas

section LedgerLemmas

theorem ledgerSum_append (l1 l2 : List StockTransaction) (w m : Int) :
    ledgerSum (l1 ++ l2) w m = ledgerSum l1 w m + ledgerSum l2 w m := by
  simp [ledgerSum, List.filter_append]

theorem ledgerSum_single (e : StockTransaction) (w m : Int) :
    ledgerSum [e] w m =
      if (e.warehouse_id == w && e.material_id == m) = true then signedDelta e
      else 0 := by
  by_cases h : (e.warehouse_id == w && e.material_id == m) = true <;>
    simp [ledgerSum, List.filter_cons, h]

end LedgerLemmas

section CreateTxnLemmas

variable (s : DBState) (t : StockTransactionCreate)

theorem materials_isNone_false
    (hM : (s.materials.find? (fun mm => mm.id == t.material_id)).isSome = true) :
    (s.materials.find? (fun mm => mm.id == t.material_id)).isNone = false := by
  rcases Option.isSome_iff_exists.mp hM with ⟨a, ha⟩
  rw [ha]; rfl

theorem ensured_isSome :
    (findStock (ensureStock s.stocks t.warehouse_id t.material_id)
      t.warehouse_id t.material_id).isSome = true := by
  rw [findStock_ensureStock_self]; rfl

theorem create_txn_notFound_warehouse
    (hW : s.warehouses.contains t.warehouse_id = false) :
    create_stock_transaction s t = ⟨.error .notFound, s, []⟩ := by
  unfold create_stock_transaction
  rw [if_pos hW]

theorem create_txn_notFound_material
    (hW : s.warehouses.contains t.warehouse_id = true)
    (hM : (s.materials.find? (fun mm => mm.id == t.material_id)).isNone = true) :
    create_stock_transaction s t = ⟨.error .notFound, s, []⟩ := by
  unfold create_stock_transaction
  rw [if_neg (by intro hc; rw [hW] at hc; exact Bool.noConfusion hc), if_pos hM]

theorem create_txn_ok
    (hW : s.warehouses.contains t.warehouse_id = true)
    (hM : (s.materials.find? (fun mm => mm.id == t.material_id)).isSome = true)
    (newq : Int)
    (hA : applyKind t.transaction_type
      (stockQty s.stocks t.warehouse_id t.material_id) t.quantity = .ok newq) :
    create_stock_transaction s t =
      ⟨.ok newq,
       ⟨s.warehouses, s.materials,
         updateStockQty (ensureStock s.stocks t.warehouse_id t.material_id)
           t.warehouse_id t.material_id (fun _ => newq),
         s.ledger ++
           [⟨t.warehouse_id, t.material_id, t.transaction_type, t.quantity, none⟩],
         s.transfers, s.alerts⟩,
       txnEffects t.warehouse_id⟩ := by
  unfold create_stock_transaction
  rw [if_neg (by intro hc; rw [hW] at hc; exact Bool.noConfusion hc), if_neg (by simp [materials_isNone_false s t hM]), hA]

theorem create_txn_err
    (hW : s.warehouses.contains t.warehouse_id = true)
    (hM : (s.materials.find? (fun mm => mm.id == t.material_id)).isSome = true)
    (e : ApiError)
    (hA : applyKind t.transaction_type
      (stockQty s.stocks t.warehouse_id t.material_id) t.quantity = .error e) :
    create_stock_transaction s t = ⟨.error e, s, []⟩ := by
  unfold create_stock_transaction
  rw [if_neg (by intro hc; rw [hW] at hc; exact Bool.noConfusion hc), if_neg (by simp [materials_isNone_false s t hM]), hA]

theorem applyKind_additive (cur q : Int) (kind : TransactionType)
    (hK : kind = .PURCHASE ∨ kind = .TRANSFER_IN ∨ kind = .RETURN) :
    applyKind kind cur q = .ok (cur + q) := by
  rcases hK with hK | hK | hK <;> rw [hK] <;> rfl

theorem applyKind_subtractive_fail (cur q : Int) (kind : TransactionType)
    (hK : kind = .TRANSFER_OUT ∨ kind = .CONSUMPTION) (hQ : cur < q) :
    applyKind kind cur q = .error .insufficientStock := by
  rcases hK with hK | hK <;> rw [hK] <;> simp [applyKind, hQ]

theorem applyKind_subtractive_ok (cur q : Int) (kind : TransactionType)
    (hK : kind = .TRANSFER_OUT ∨ kind = .CONSUMPTION) (hQ : q ≤ cur) :
    applyKind kind cur q = .ok (cur - q) := by
  rcases hK with hK | hK <;> rw [hK] <;> simp [applyKind, not_lt.mpr hQ]

theorem applyKind_adjustment (cur q : Int) :
    applyKind .ADJUSTMENT cur q = .ok q := rfl

theorem create_txn_cases :
    ((create_stock_transaction s t).response.isOk = false ∧
      (create_stock_transaction s t).state = s ∧
      (create_stock_transaction s t).effects = []) ∨
    ((create_stock_transaction s t).response.isOk = true ∧
      (create_stock_transaction s t).effects = txnEffects t.warehouse_id ∧
      (create_stock_transaction s t).state.alerts = s.alerts) := by
  unfold create_stock_transaction
  repeat' split
  all_goals simp [Except.isOk, Except.toBool]

end CreateTxnLemmas

section TransferLemmas

theorem findStock_updateStockQty_none_iff (l : List InventoryStock)
    (w m w1 m1 : Int) (f : Int → Int) :
    findStock (updateStockQty l w m f) w1 m1 = none ↔
      findStock l w1 m1 = none := by
  have h2 := findStock_updateStockQty_isSome w m w1 m1 f l
  rw [← Option.not_isSome_iff_eq_none, ← Option.not_isSome_iff_eq_none, h2]

theorem stockQty_subUpdate_le (stocks : List InventoryStock)
    (from_wh mh m0 q : Int) (hq : 0 ≤ q) :
    stockQty (updateStockQty stocks from_wh mh (fun x => x - q))
      from_wh m0 ≤ stockQty stocks from_wh m0 := by
  by_cases hm : m0 = mh
  · subst hm
    cases hsome : findStock stocks from_wh m0 with
    | none =>
      have : findStock (updateStockQty stocks from_wh m0 (fun x => x - q))
          from_wh m0 = none :=
        (findStock_updateStockQty_none_iff stocks from_wh m0 from_wh m0 _).mpr hsome
      rw [stockQty_eq_zero_of_none _ _ _ this, stockQty_eq_zero_of_none _ _ _ hsome]
    | some r =>
      have hs : (findStock stocks from_wh m0).isSome = true := by rw [hsome]; rfl
      rw [stockQty_updateStockQty_self _ _ _ _ hs]
      omega
  · rw [stockQty_updateStockQty_ne _ _ _ _ _ _ (Or.inr hm)]

theorem stockQty_twoUpdates_le (stocks : List InventoryStock)
    (from_wh to_wh mh m0 q : Int) (hq : 0 ≤ q)
    (hsome : (findStock stocks from_wh mh).isSome = true) :
    stockQty (updateStockQty
        (updateStockQty stocks from_wh mh (fun x => x - q))
        to_wh mh (fun x => x + q)) from_wh m0 ≤
      stockQty stocks from_wh m0 := by
  by_cases hm : m0 = mh
  · subst hm
    by_cases hw : to_wh = from_wh
    · subst hw
      have hsome1 : (findStock
          (updateStockQty stocks to_wh m0 (fun x => x - q)) to_wh m0).isSome =
          true := by
        rw [findStock_updateStockQty_isSome]; exact hsome
      rw [stockQty_updateStockQty_self _ _ _ _ hsome1,
        stockQty_updateStockQty_self _ _ _ _ hsome]
      omega
    · rw [stockQty_updateStockQty_ne _ _ _ _ _ _
        (Or.inl (fun hh => hw hh.symm))]
      have hs1 : (findStock stocks from_wh m0).isSome = true := hsome
      rw [stockQty_updateStockQty_self _ _ _ _ hs1]
      omega
  · rw [stockQty_updateStockQty_ne _ _ _ _ _ _ (Or.inr hm),
      stockQty_updateStockQty_ne _ _ _ _ _ _ (Or.inr hm)]

theorem findTransfer_markCompleted (ts : List Transfer) (tid : Int) :
    findTransfer (markCompleted ts tid) tid =
      (findTransfer ts tid).map (fun tr =>
        ⟨tr.id, tr.transfer_number, tr.from_warehouse_id, tr.to_warehouse_id,
          .COMPLETED, tr.items⟩) := by
  induction ts with
  | nil => rfl
  | cons tr rest ih =>
    by_cases h : (tr.id == tid) = true
    · simp [markCompleted, findTransfer, h]
    · simp [markCompleted, findTransfer, h] at ih ⊢
      exact ih

theorem complete_notFound (s : DBState) (tid : Int)
    (hT : findTransfer s.transfers tid = none) :
    complete_transfer s tid = ⟨.error .notFound, s, []⟩ := by
  unfold complete_transfer
  rw [hT]

theorem complete_already (s : DBState) (tid : Int) (tr : Transfer)
    (hT : findTransfer s.transfers tid = some tr)
    (hS : tr.status = .COMPLETED) :
    complete_transfer s tid = ⟨.error .alreadyCompleted, s, []⟩ := by
  unfold complete_transfer
  rw [hT]
  simp [hS]

theorem complete_loop_none (s : DBState) (tid : Int) (tr : Transfer)
    (hT : findTransfer s.transfers tid = some tr)
    (hS : tr.status ≠ .COMPLETED)
    (hL : completeLoop tr.from_warehouse_id tr.to_warehouse_id tr.id tr.items
      s.stocks [] s.ledger = none) :
    complete_transfer s tid = ⟨.error .insufficientStock, s, []⟩ := by
  unfold complete_transfer
  rw [hT]
  simp only [beq_eq_false_iff_ne.mpr hS, Bool.false_eq_true, if_false]
  rw [hL]

theorem complete_loop_some (s : DBState) (tid : Int) (tr : Transfer)
    (stocks1 pending : List InventoryStock) (ledger1 : List StockTransaction)
    (hT : findTransfer s.transfers tid = some tr)
    (hS : tr.status ≠ .COMPLETED)
    (hL : completeLoop tr.from_warehouse_id tr.to_warehouse_id tr.id tr.items
      s.stocks [] s.ledger = some (stocks1, pending, ledger1))
    (hD : keysDistinct pending = true) :
    complete_transfer s tid =
      ⟨.ok (),
        ⟨s.warehouses, s.materials, stocks1 ++ pending, ledger1,
          markCompleted s.transfers tid, s.alerts⟩,
        [.commit]⟩ := by
  unfold complete_transfer
  rw [hT]
  simp only [beq_eq_false_iff_ne.mpr hS, Bool.false_eq_true, if_false]
  rw [hL]
  simp [hD]

theorem complete_cases (s : DBState) (tid : Int) :
    ((complete_transfer s tid).response.isOk = false ∧
      (complete_transfer s tid).state = s ∧
      (complete_transfer s tid).effects = []) ∨
    ((complete_transfer s tid).response.isOk = true ∧
      (complete_transfer s tid).effects = [.commit] ∧
      (complete_transfer s tid).state.alerts = s.alerts) := by
  unfold complete_transfer
  repeat' split
  all_goals simp [Except.isOk, Except.toBool]

theorem completeLoop_ledger (from_wh to_wh tid : Int) (items : List TransferItem)
    (stocks pending : List InventoryStock) (ledger : List StockTransaction)
    (stocks1 pending1 : List InventoryStock) (ledger1 : List StockTransaction)
    (hOk : completeLoop from_wh to_wh tid items stocks pending ledger =
      some (stocks1, pending1, ledger1)) :
    ledger1 = ledger ++
      items.flatMap (transferLedgerPair from_wh to_wh tid) := by
  induction items generalizing stocks pending ledger with
  | nil =>
    simp only [completeLoop, Option.some_inj, Prod.mk.injEq] at hOk
    rw [← hOk.2.2]
    simp
  | cons hd tl ih =>
    simp only [completeLoop] at hOk
    cases hf : findStock stocks from_wh hd.material_id with
    | none => rw [hf] at hOk; cases hOk
    | some fs =>
      rw [hf] at hOk
      dsimp only at hOk
      by_cases hq : fs.quantity < hd.quantity
      · rw [if_pos hq] at hOk; cases hOk
      · rw [if_neg hq] at hOk
        cases hto : findStock stocks to_wh hd.material_id with
        | some ts =>
          rw [hto] at hOk
          dsimp only at hOk
          rw [ih _ _ _ hOk]
          simp [List.flatMap_cons, List.append_assoc]
        | none =>
          rw [hto] at hOk
          dsimp only at hOk
          rw [ih _ _ _ hOk]
          simp [List.flatMap_cons, List.append_assoc]

theorem stockQty_append_left (l1 l2 : List InventoryStock) (w m : Int)
    (h : (findStock l1 w m).isSome = true) :
    stockQty (l1 ++ l2) w m = stockQty l1 w m := by
  rcases Option.isSome_iff_exists.mp h with ⟨r, hr⟩
  rw [stockQty, findStock_append, hr, stockQty, hr]
  rfl

theorem stockQty_append_right (l1 l2 : List InventoryStock) (w m : Int)
    (h : findStock l1 w m = none) :
    stockQty (l1 ++ l2) w m = stockQty l2 w m := by
  rw [stockQty, findStock_append, h, Option.none_or, stockQty]

theorem findStock_eq_none_of_forall (l : List InventoryStock) (w m : Int)
    (h : ∀ r ∈ l, (r.warehouse_id == w && r.material_id == m) = false) :
    findStock l w m = none := by
  apply List.find?_eq_none.mpr
  intro r hr
  simp [h r hr]

theorem stockQty_append_single_ne (l : List InventoryStock) (r : InventoryStock)
    (w m : Int) (h : (r.warehouse_id == w && r.material_id == m) = false) :
    stockQty (l ++ [r]) w m = stockQty l w m := by
  cases hf : findStock l w m with
  | some r1 =>
    rw [stockQty_append_left l [r] w m (by rw [hf]; rfl)]
  | none =>
    rw [stockQty_append_right l [r] w m hf, stockQty_eq_zero_of_none _ _ _ hf,
      stockQty_eq_zero_of_none]
    rw [findStock_cons_neg w m r [] h]
    rfl

theorem updateStockQty_append_left (l1 l2 : List InventoryStock) (w m : Int)
    (f : Int → Int) (h : (findStock l1 w m).isSome = true) :
    updateStockQty (l1 ++ l2) w m f = updateStockQty l1 w m f ++ l2 := by
  induction l1 with
  | nil => cases h
  | cons r rest ih =>
    by_cases hr : (r.warehouse_id == w && r.material_id == m) = true
    · rw [List.cons_append, updateStockQty_cons_pos w m f r _ hr,
        updateStockQty_cons_pos w m f r rest hr, List.cons_append]
    · have hr0 : (r.warehouse_id == w && r.material_id == m) = false := by
        simpa using hr
      have h1 : (findStock rest w m).isSome = true := by
        rw [findStock_cons_neg w m r rest hr0] at h
        exact h
      rw [List.cons_append, updateStockQty_cons_neg w m f r _ hr0,
        updateStockQty_cons_neg w m f r rest hr0, List.cons_append, ih h1]

theorem itemsQty_cons (hd : TransferItem) (tl : List TransferItem) (m : Int) :
    itemsQty (hd :: tl) m =
      (if (hd.material_id == m) = true then hd.quantity else 0) +
        itemsQty tl m := by
  by_cases h : (hd.material_id == m) = true <;>
    simp [itemsQty, List.filter_cons, h]

theorem itemsQty_eq_zero_of_not_mem (items : List TransferItem) (m : Int)
    (h : m ∉ items.map (fun i => i.material_id)) : itemsQty items m = 0 := by
  induction items with
  | nil => rfl
  | cons hd tl ih =>
    simp only [List.map_cons, List.mem_cons, not_or] at h
    rw [itemsQty_cons, ih h.2, if_neg]
    · ring
    · simp [beq_eq_false_iff_ne]
      exact fun hh => h.1 hh.symm

theorem itemsQty_eq_of_nodup (items : List TransferItem) (item : TransferItem)
    (hmem : item ∈ items)
    (hND : (items.map (fun i => i.material_id)).Nodup) :
    itemsQty items item.material_id = item.quantity := by
  induction items with
  | nil => cases hmem
  | cons hd tl ih =>
    simp only [List.map_cons, List.nodup_cons] at hND
    rcases List.mem_cons.mp hmem with hh | hh
    · subst hh
      rw [itemsQty_cons, if_pos (by simp),
        itemsQty_eq_zero_of_not_mem tl item.material_id hND.1]
      ring
    · have hne : (hd.material_id == item.material_id) = false := by
        simp only [beq_eq_false_iff_ne]
        intro he
        exact hND.1 (he ▸ List.mem_map_of_mem (fun i => i.material_id) hh)
      rw [itemsQty_cons, if_neg (by simp [hne]), ih hh hND.2]
      ring

theorem completeLoop_none_of_bad (from_wh to_wh tid : Int)
    (items : List TransferItem) :
    ∀ (stocks pending : List InventoryStock) (ledger : List StockTransaction),
    (∀ item ∈ items, 0 ≤ item.quantity) →
    (∃ item ∈ items, findStock stocks from_wh item.material_id = none ∨
      stockQty stocks from_wh item.material_id < item.quantity) →
    completeLoop from_wh to_wh tid items stocks pending ledger = none := by
  induction items with
  | nil =>
    intro stocks pending ledger _ hbad
    rcases hbad with ⟨i, hi, _⟩
    cases hi
  | cons hd tl ih =>
    intro stocks pending ledger hNN hbad
    cases hf : findStock stocks from_wh hd.material_id with
    | none => simp [completeLoop, hf]
    | some fs =>
      by_cases hq : fs.quantity < hd.quantity
      · simp [completeLoop, hf, hq]
      · rcases hbad with ⟨i, hi, hib⟩
        have hitl : i ∈ tl := by
          rcases List.mem_cons.mp hi with hih | hitl
          · exfalso
            subst hih
            rcases hib with hib | hib
            · rw [hf] at hib; cases hib
            · rw [stockQty_eq_of_findStock _ _ _ _ hf] at hib; exact hq hib
          · exact hitl
        have hq0 : 0 ≤ hd.quantity := hNN hd (List.mem_cons_self hd tl)
        have hNNtl : ∀ item ∈ tl, 0 ≤ item.quantity :=
          fun it hit => hNN it (List.mem_cons_of_mem hd hit)
        have hsome : (findStock stocks from_wh hd.material_id).isSome = true := by
          rw [hf]; rfl
        cases hto : findStock stocks to_wh hd.material_id with
        | some ts =>
          have hstep : completeLoop from_wh to_wh tid (hd :: tl) stocks pending
              ledger =
              completeLoop from_wh to_wh tid tl
                (updateStockQty (updateStockQty stocks from_wh hd.material_id
                  (fun q => q - hd.quantity)) to_wh hd.material_id
                  (fun q => q + hd.quantity))
                pending (ledger ++ transferLedgerPair from_wh to_wh tid hd) := by
            simp only [completeLoop]
            rw [hf]
            dsimp only
            rw [if_neg hq, hto]
          rw [hstep]
          apply ih _ _ _ hNNtl
          refine ⟨i, hitl, ?_⟩
          rcases hib with hib | hib
          · left
            rw [findStock_updateStockQty_none_iff, findStock_updateStockQty_none_iff]
            exact hib
          · right
            calc stockQty (updateStockQty (updateStockQty stocks from_wh
                  hd.material_id (fun q => q - hd.quantity)) to_wh hd.material_id
                  (fun q => q + hd.quantity)) from_wh i.material_id
                ≤ stockQty stocks from_wh i.material_id :=
                  stockQty_twoUpdates_le stocks from_wh to_wh hd.material_id
                    i.material_id hd.quantity hq0 hsome
              _ < i.quantity := hib
        | none =>
          have hstep : completeLoop from_wh to_wh tid (hd :: tl) stocks pending
              ledger =
              completeLoop from_wh to_wh tid tl
                (updateStockQty stocks from_wh hd.material_id
                  (fun q => q - hd.quantity))
                (pending ++ [⟨to_wh, hd.material_id, hd.quantity⟩])
                (ledger ++ transferLedgerPair from_wh to_wh tid hd) := by
            simp only [completeLoop]
            rw [hf]
            dsimp only
            rw [if_neg hq, hto]
          rw [hstep]
          apply ih _ _ _ hNNtl
          refine ⟨i, hitl, ?_⟩
          rcases hib with hib | hib
          · left
            rw [findStock_updateStockQty_none_iff]
            exact hib
          · right
            calc stockQty (updateStockQty stocks from_wh hd.material_id
                  (fun q => q - hd.quantity)) from_wh i.material_id
                ≤ stockQty stocks from_wh i.material_id :=
                  stockQty_subUpdate_le stocks from_wh hd.material_id
                    i.material_id hd.quantity hq0
              _ < i.quantity := hib

theorem completeLoop_qty (from_wh to_wh tid : Int) (hFT : from_wh ≠ to_wh)
    (items : List TransferItem) :
    ∀ (stocks pending : List InventoryStock) (ledger : List StockTransaction)
      (stocks1 pending1 : List InventoryStock) (ledger1 : List StockTransaction),
    (items.map (fun i => i.material_id)).Nodup →
    (∀ r ∈ pending, r.warehouse_id = to_wh ∧
      ∀ i ∈ items, r.material_id ≠ i.material_id) →
    completeLoop from_wh to_wh tid items stocks pending ledger =
      some (stocks1, pending1, ledger1) →
    ∀ m : Int,
      stockQty (stocks1 ++ pending1) from_wh m =
        stockQty (stocks ++ pending) from_wh m - itemsQty items m ∧
      stockQty (stocks1 ++ pending1) to_wh m =
        stockQty (stocks ++ pending) to_wh m + itemsQty items m := by
  induction items with
  | nil =>
    intro stocks pending ledger stocks1 pending1 ledger1 _ _ hOk m
    simp only [completeLoop, Option.some_inj, Prod.mk.injEq] at hOk
    rw [← hOk.1, ← hOk.2.1]
    simp [itemsQty]
  | cons hd tl ih =>
    intro stocks pending ledger stocks1 pending1 ledger1 hND hPend hOk m
    simp only [completeLoop] at hOk
    cases hf : findStock stocks from_wh hd.material_id with
    | none => rw [hf] at hOk; cases hOk
    | some fs =>
      rw [hf] at hOk
      dsimp only at hOk
      by_cases hq : fs.quantity < hd.quantity
      · rw [if_pos hq] at hOk; cases hOk
      · rw [if_neg hq] at hOk
        simp only [List.map_cons, List.nodup_cons] at hND
        have hsomef : (findStock stocks from_wh hd.material_id).isSome = true := by
          rw [hf]; rfl
        have hfC : findStock (stocks ++ pending) from_wh hd.material_id =
            some fs := by
          rw [findStock_append, hf]; rfl
        have hsomefC : (findStock (stocks ++ pending) from_wh
            hd.material_id).isSome = true := by
          rw [hfC]; rfl
        have hPendTl : ∀ r ∈ pending, r.warehouse_id = to_wh ∧
            ∀ i ∈ tl, r.material_id ≠ i.material_id :=
          fun r hr => ⟨(hPend r hr).1,
            fun i hi => (hPend r hr).2 i (List.mem_cons_of_mem hd hi)⟩
        cases hto : findStock stocks to_wh hd.material_id with
        | some ts =>
          rw [hto] at hOk
          dsimp only at hOk
          have htoC : findStock (stocks ++ pending) to_wh hd.material_id =
              some ts := by
            rw [findStock_append, hto]; rfl
          have hsomet1 : (findStock (updateStockQty stocks from_wh
              hd.material_id (fun q => q - hd.quantity)) to_wh
              hd.material_id).isSome = true := by
            rw [findStock_updateStockQty_isSome, hto]; rfl
          have hcomb : updateStockQty (updateStockQty stocks from_wh
              hd.material_id (fun q => q - hd.quantity)) to_wh hd.material_id
              (fun q => q + hd.quantity) ++ pending =
              updateStockQty (updateStockQty (stocks ++ pending) from_wh
                hd.material_id (fun q => q - hd.quantity)) to_wh hd.material_id
                (fun q => q + hd.quantity) := by
            rw [updateStockQty_append_left stocks pending from_wh
              hd.material_id _ hsomef,
              updateStockQty_append_left _ pending to_wh hd.material_id _
              hsomet1]
          have hIH := ih _ _ _ _ _ _ hND.2 hPendTl hOk m
          rw [hcomb] at hIH
          have hsometC : (findStock (updateStockQty (stocks ++ pending)
              from_wh hd.material_id (fun q => q - hd.quantity)) to_wh
              hd.material_id).isSome = true := by
            rw [findStock_updateStockQty_isSome, htoC]; rfl
          by_cases hm : m = hd.material_id
          · subst hm
            have e1 : stockQty (updateStockQty (updateStockQty
                (stocks ++ pending) from_wh hd.material_id
                (fun q => q - hd.quantity))
                to_wh hd.material_id (fun q => q + hd.quantity))
                from_wh hd.material_id =
                stockQty (stocks ++ pending) from_wh hd.material_id -
                  hd.quantity := by
              rw [stockQty_updateStockQty_ne _ _ _ _ _ _ (Or.inl hFT),
                stockQty_updateStockQty_self _ _ _ _ hsomefC]
            have e2 : stockQty (updateStockQty (updateStockQty
                (stocks ++ pending) from_wh hd.material_id
                (fun q => q - hd.quantity))
                to_wh hd.material_id (fun q => q + hd.quantity))
                to_wh hd.material_id =
                stockQty (stocks ++ pending) to_wh hd.material_id +
                  hd.quantity := by
              rw [stockQty_updateStockQty_self _ _ _ _ hsometC,
                stockQty_updateStockQty_ne _ _ _ _ _ _
                  (Or.inl (fun hh => hFT hh.symm))]
            rw [itemsQty_cons, if_pos (by simp)]
            constructor
            · rw [hIH.1, e1]; ring
            · rw [hIH.2, e2]; ring
          · have e1 : stockQty (updateStockQty (updateStockQty
                (stocks ++ pending) from_wh hd.material_id
                (fun q => q - hd.quantity)) to_wh hd.material_id
                (fun q => q + hd.quantity)) from_wh m =
                stockQty (stocks ++ pending) from_wh m := by
              rw [stockQty_updateStockQty_ne _ _ _ _ _ _ (Or.inr hm),
                stockQty_updateStockQty_ne _ _ _ _ _ _ (Or.inr hm)]
            have e2 : stockQty (updateStockQty (updateStockQty
                (stocks ++ pending) from_wh hd.material_id
                (fun q => q - hd.quantity)) to_wh hd.material_id
                (fun q => q + hd.quantity)) to_wh m =
                stockQty (stocks ++ pending) to_wh m := by
              rw [stockQty_updateStockQty_ne _ _ _ _ _ _ (Or.inr hm),
                stockQty_updateStockQty_ne _ _ _ _ _ _ (Or.inr hm)]
            have hcond : (hd.material_id == m) = false := by
              simp only [beq_eq_false_iff_ne]
              exact fun hh => hm hh.symm
            rw [itemsQty_cons, if_neg (by simp [hcond])]
            constructor
            · rw [hIH.1, e1]; ring
            · rw [hIH.2, e2]; ring
        | none =>
          rw [hto] at hOk
          dsimp only at hOk
          have htoC : findStock (stocks ++ pending) to_wh hd.material_id =
              none := by
            rw [findStock_append, hto, Option.none_or]
            apply findStock_eq_none_of_forall
            intro r hr
            have : (r.material_id == hd.material_id) = false := by
              simp only [beq_eq_false_iff_ne]
              exact (hPend r hr).2 hd (List.mem_cons_self hd tl)
            simp [this]
          have hPendNew : ∀ r ∈ pending ++
              [(⟨to_wh, hd.material_id, hd.quantity⟩ : InventoryStock)],
              r.warehouse_id = to_wh ∧
              ∀ i ∈ tl, r.material_id ≠ i.material_id := by
            intro r hr
            rcases List.mem_append.mp hr with hr | hr
            · exact hPendTl r hr
            · rcases List.mem_singleton.mp hr with rfl
              refine ⟨rfl, fun i hi heq => hND.1 ?_⟩
              have heq2 : hd.material_id = i.material_id := heq
              rw [heq2]
              exact List.mem_map_of_mem (fun i => i.material_id) hi
          have hassoc : updateStockQty stocks from_wh hd.material_id
              (fun q => q - hd.quantity) ++ (pending ++
                [(⟨to_wh, hd.material_id, hd.quantity⟩ : InventoryStock)]) =
              updateStockQty (stocks ++ pending) from_wh hd.material_id
                (fun q => q - hd.quantity) ++
                [(⟨to_wh, hd.material_id, hd.quantity⟩ : InventoryStock)] := by
            rw [updateStockQty_append_left stocks pending from_wh
              hd.material_id _ hsomef, List.append_assoc]
          have hIH := ih _ _ _ _ _ _ hND.2 hPendNew hOk m
          rw [hassoc] at hIH
          have hrow_ne_from : ∀ m2 : Int,
              (((⟨to_wh, hd.material_id, hd.quantity⟩ :
                InventoryStock)).warehouse_id == from_wh &&
                ((⟨to_wh, hd.material_id, hd.quantity⟩ :
                InventoryStock)).material_id == m2) = false := by
            intro m2
            have : (to_wh == from_wh) = false := by
              simp only [beq_eq_false_iff_ne]
              exact fun hh => hFT hh.symm
            simp [this]
          by_cases hm : m = hd.material_id
          · subst hm
            have e1 : stockQty (updateStockQty (stocks ++ pending) from_wh
                hd.material_id (fun q => q - hd.quantity) ++
                [(⟨to_wh, hd.material_id, hd.quantity⟩ : InventoryStock)])
                from_wh hd.material_id =
                stockQty (stocks ++ pending) from_wh hd.material_id -
                  hd.quantity := by
              rw [stockQty_append_single_ne _ _ _ _
                (hrow_ne_from hd.material_id),
                stockQty_updateStockQty_self _ _ _ _ hsomefC]
            have hnone1 : findStock (updateStockQty (stocks ++ pending)
                from_wh hd.material_id (fun q => q - hd.quantity)) to_wh
                hd.material_id = none := by
              rw [findStock_updateStockQty_none_iff]
              exact htoC
            have e2 : stockQty (updateStockQty (stocks ++ pending) from_wh
                hd.material_id (fun q => q - hd.quantity) ++
                [(⟨to_wh, hd.material_id, hd.quantity⟩ : InventoryStock)])
                to_wh hd.material_id =
                stockQty (stocks ++ pending) to_wh hd.material_id +
                  hd.quantity := by
              rw [stockQty_append_right _ _ _ _ hnone1,
                stockQty_eq_zero_of_none _ _ _ htoC]
              rw [stockQty, findStock_cons_pos to_wh hd.material_id _ []
                (by simp)]
              ring
            rw [itemsQty_cons, if_pos (by simp)]
            constructor
            · rw [hIH.1, e1]; ring
            · rw [hIH.2, e2]; ring
          · have hrow_ne_m : (((⟨to_wh, hd.material_id, hd.quantity⟩ :
                InventoryStock)).warehouse_id == to_wh &&
                ((⟨to_wh, hd.material_id, hd.quantity⟩ :
                InventoryStock)).material_id == m) = false := by
              have : (hd.material_id == m) = false := by
                simp only [beq_eq_false_iff_ne]
                exact fun hh => hm hh.symm
              simp [this]
            have e1 : stockQty (updateStockQty (stocks ++ pending) from_wh
                hd.material_id (fun q => q - hd.quantity) ++
                [(⟨to_wh, hd.material_id, hd.quantity⟩ : InventoryStock)])
                from_wh m = stockQty (stocks ++ pending) from_wh m := by
              rw [stockQty_append_single_ne _ _ _ _ (hrow_ne_from m),
                stockQty_updateStockQty_ne _ _ _ _ _ _ (Or.inr hm)]
            have e2 : stockQty (updateStockQty (stocks ++ pending) from_wh
                hd.material_id (fun q => q - hd.quantity) ++
                [(⟨to_wh, hd.material_id, hd.quantity⟩ : InventoryStock)])
                to_wh m = stockQty (stocks ++ pending) to_wh m := by
              rw [stockQty_append_single_ne _ _ _ _ hrow_ne_m,
                stockQty_updateStockQty_ne _ _ _ _ _ _
                  (Or.inl (fun hh => hFT hh.symm))]
            have hcond : (hd.material_id == m) = false := by
              simp only [beq_eq_false_iff_ne]
              exact fun hh => hm hh.symm
            rw [itemsQty_cons, if_neg (by simp [hcond])]
            constructor
            · rw [hIH.1, e1]; ring
            · rw [hIH.2, e2]; ring

end TransferLemmas

section ReconciliationLemmas

theorem reconciled_create_txn (s : DBState) (t : StockTransactionCreate)
    (hK : t.transaction_type ≠ .ADJUSTMENT) (hR : reconciled s) :
    reconciled (create_stock_transaction s t).state := by
  cases hW : s.warehouses.contains t.warehouse_id with
  | false => rw [create_txn_notFound_warehouse s t hW]; exact hR
  | true =>
    cases hM : (s.materials.find? (fun mm => mm.id == t.material_id)).isNone with
    | true => rw [create_txn_notFound_material s t hW hM]; exact hR
    | false =>
      have hMs : (s.materials.find?
          (fun mm => mm.id == t.material_id)).isSome = true := by
        cases ho : s.materials.find? (fun mm => mm.id == t.material_id)
        · rw [ho] at hM; cases hM
        · rfl
      cases hA : applyKind t.transaction_type
          (stockQty s.stocks t.warehouse_id t.material_id) t.quantity with
      | error e => rw [create_txn_err s t hW hMs e hA]; exact hR
      | ok newq =>
        have hdelta : newq = stockQty s.stocks t.warehouse_id t.material_id +
            signedDelta ⟨t.warehouse_id, t.material_id, t.transaction_type,
              t.quantity, none⟩ := by
          cases ht : t.transaction_type
          all_goals rw [ht] at hA
          case ADJUSTMENT => exact absurd ht hK
          case TRANSFER_OUT | CONSUMPTION =>
            by_cases hcur : stockQty s.stocks t.warehouse_id t.material_id <
                t.quantity
            · rw [applyKind, if_pos hcur] at hA; cases hA
            · rw [applyKind, if_neg hcur] at hA
              have := Except.ok.inj hA
              simp only [signedDelta]
              omega
          all_goals
            have := Except.ok.inj hA
            simp only [signedDelta]
            omega
        rw [create_txn_ok s t hW hMs newq hA]
        intro w m
        by_cases hkey : w = t.warehouse_id ∧ m = t.material_id
        · rcases hkey with ⟨rfl, rfl⟩
          have hq1 : stockQty (updateStockQty
              (ensureStock s.stocks t.warehouse_id t.material_id)
              t.warehouse_id t.material_id (fun _ => newq))
              t.warehouse_id t.material_id = newq := by
            rw [stockQty_updateStockQty_self _ _ _ _ (ensured_isSome s t)]
          have hl1 : ledgerSum (s.ledger ++
              [⟨t.warehouse_id, t.material_id, t.transaction_type,
                t.quantity, none⟩]) t.warehouse_id t.material_id =
              ledgerSum s.ledger t.warehouse_id t.material_id +
                signedDelta ⟨t.warehouse_id, t.material_id,
                  t.transaction_type, t.quantity, none⟩ := by
            rw [ledgerSum_append, ledgerSum_single, if_pos (by simp)]
          rw [hq1, hl1, ← hR t.warehouse_id t.material_id, hdelta]
        · have hne : w ≠ t.warehouse_id ∨ m ≠ t.material_id := by tauto
          have hq1 : stockQty (updateStockQty
              (ensureStock s.stocks t.warehouse_id t.material_id)
              t.warehouse_id t.material_id (fun _ => newq)) w m =
              stockQty s.stocks w m := by
            rw [stockQty_updateStockQty_ne _ _ _ _ _ _ hne,
              stockQty_ensureStock_ne _ _ _ _ _ hne]
          have hcond : ((t.warehouse_id == w) && (t.material_id == m)) =
              false := by
            rcases hne with hne | hne
            · have : (t.warehouse_id == w) = false := by
                simp only [beq_eq_false_iff_ne]
                exact fun hh => hne hh.symm
              simp [this]
            · have : (t.material_id == m) = false := by
                simp only [beq_eq_false_iff_ne]
                exact fun hh => hne hh.symm
              simp [this]
          have hl1 : ledgerSum (s.ledger ++
              [⟨t.warehouse_id, t.material_id, t.transaction_type,
                t.quantity, none⟩]) w m = ledgerSum s.ledger w m := by
            rw [ledgerSum_append, ledgerSum_single, if_neg (by simp [hcond])]
            ring
          rw [hq1, hl1]
          exact hR w m

theorem reconciled_applyTxns (s : DBState) (ts : List StockTransactionCreate)
    (hR : reconciled s)
    (hK : ∀ t ∈ ts, t.transaction_type ≠ .ADJUSTMENT) :
    reconciled (applyTxns s ts) := by
  induction ts generalizing s with
  | nil => exact hR
  | cons t rest ih =>
    exact ih (create_stock_transaction s t).state
      (reconciled_create_txn s t (hK t (List.mem_cons_self t rest)) hR)
      (fun t2 h2 => hK t2 (List.mem_cons_of_mem t h2))

end ReconciliationLemmas

section AlertLemmas

theorem sweep_no_new_alert_for_open (s : DBState) (mid : Int)
    (hOpen : hasUnresolvedLowStock s.alerts mid = true) :
    ∀ a ∈ (generate_low_stock_alerts s).state.alerts,
      isOpenLowStockFor mid a = true → a ∈ s.alerts := by
  intro a ha hopen_a
  simp only [generate_low_stock_alerts] at ha
  rcases List.mem_append.mp ha with ha | ha
  · exact ha
  · exfalso
    rcases List.mem_filterMap.mp ha with ⟨p, hp, hpa⟩
    by_cases hdup : hasUnresolvedLowStock s.alerts p.2.id = true
    · rw [if_pos hdup] at hpa; cases hpa
    · rw [if_neg hdup] at hpa
      have ha2 := Option.some.inj hpa
      rw [← ha2] at hopen_a
      simp only [isOpenLowStockFor, Bool.and_eq_true, beq_iff_eq] at hopen_a
      exact hdup (hopen_a.1.1.2 ▸ hOpen)

end AlertLemmas

section CreateTransferLemmas

theorem create_transfer_notFound_from (s : DBState) (p : TransferCreate)
    (year : Nat) (newId : Int)
    (hF : s.warehouses.contains p.from_warehouse_id = false) :
    create_transfer s p year newId = ⟨.error .notFound, s⟩ := by
  unfold create_transfer
  rw [if_pos hF]

theorem create_transfer_notFound_to (s : DBState) (p : TransferCreate)
    (year : Nat) (newId : Int)
    (hF : s.warehouses.contains p.from_warehouse_id = true)
    (hT : s.warehouses.contains p.to_warehouse_id = false) :
    create_transfer s p year newId = ⟨.error .notFound, s⟩ := by
  unfold create_transfer
  rw [if_neg (by intro hc; rw [hF] at hc; exact Bool.noConfusion hc),
    if_pos hT]

theorem create_transfer_ok (s : DBState) (p : TransferCreate)
    (year : Nat) (newId : Int)
    (hF : s.warehouses.contains p.from_warehouse_id = true)
    (hT : s.warehouses.contains p.to_warehouse_id = true) :
    create_transfer s p year newId =
      ⟨.ok ⟨newId,
          "TR-" ++ toString year ++ "-" ++ pad5 (s.transfers.length + 1),
          p.from_warehouse_id, p.to_warehouse_id, .PENDING,
          p.items.map (fun i => ⟨i.material_id, i.quantity⟩)⟩,
        ⟨s.warehouses, s.materials, s.stocks, s.ledger,
          s.transfers ++ [⟨newId,
            "TR-" ++ toString year ++ "-" ++ pad5 (s.transfers.length + 1),
            p.from_warehouse_id, p.to_warehouse_id, .PENDING,
            p.items.map (fun i => ⟨i.material_id, i.quantity⟩)⟩],
          s.alerts⟩⟩ := by
  unfold create_transfer
  rw [if_neg (by intro hc; rw [hF] at hc; exact Bool.noConfusion hc),
    if_neg (by intro hc; rw [hT] at hc; exact Bool.noConfusion hc)]

end CreateTransferLemmas

section Claims

/-- C1 (counterexample): the reconciliation claim fails on sequences that
contain an adjustment transaction. Starting from the empty, trivially
reconciled state, the single successfully applied adjustment of 5 leaves
stock quantity 5 while the signed sum of the pair's ledger deltas is 0
(the claim's delta assignment gives adjustment entries no delta). -/
theorem c1_counterexample :
    (create_stock_transaction sampleEmpty ⟨1, 1, .ADJUSTMENT, 5⟩).response =
      .ok 5 ∧
    stockQty (applyTxns sampleEmpty [⟨1, 1, .ADJUSTMENT, 5⟩]).stocks 1 1 = 5 ∧
    ledgerSum (applyTxns sampleEmpty [⟨1, 1, .ADJUSTMENT, 5⟩]).ledger 1 1 = 0 ∧
    stockQty (applyTxns sampleEmpty [⟨1, 1, .ADJUSTMENT, 5⟩]).stocks 1 1 ≠
      ledgerSum (applyTxns sampleEmpty [⟨1, 1, .ADJUSTMENT, 5⟩]).ledger 1 1 :=
  ⟨rfl, by decide, by decide, by decide⟩

/-- C1 (amended): for every sequence of stock transactions containing no
adjustment, applying it through the endpoint preserves the reconciliation
invariant — each pair's quantity equals the signed sum of its ledger
deltas (addition for purchase/transfer_in/return, subtraction for
transfer_out/consumption); failed requests leave the state unchanged. -/
theorem c1_reconciliation_adjustment_free (s : DBState)
    (ts : List StockTransactionCreate) (hR : reconciled s)
    (hK : ∀ t ∈ ts, t.transaction_type ≠ .ADJUSTMENT) :
    reconciled (applyTxns s ts) :=
  reconciled_applyTxns s ts hR hK

/-- C1 witness: the amended reconciliation theorem at a concrete
adjustment-free sequence from the empty state. -/
theorem c1_witness :
    reconciled (applyTxns sampleEmpty
      [⟨1, 1, .PURCHASE, 10⟩, ⟨1, 1, .CONSUMPTION, 4⟩]) :=
  c1_reconciliation_adjustment_free sampleEmpty
    [⟨1, 1, .PURCHASE, 10⟩, ⟨1, 1, .CONSUMPTION, 4⟩]
    (fun w m => rfl) (by decide)

/-- C2: for a transfer_out or consumption request on an existing warehouse
and material, if the current quantity is below the requested quantity the
handler fails with InsufficientStock (HTTP 400), the state — stock and
ledger — is unchanged and nothing is committed; otherwise it succeeds
with new quantity = old − requested, and appends exactly one ledger
entry. -/
theorem c2_outbound_insufficiency (s : DBState) (t : StockTransactionCreate)
    (hK : t.transaction_type = .TRANSFER_OUT ∨
      t.transaction_type = .CONSUMPTION)
    (hW : s.warehouses.contains t.warehouse_id = true)
    (hM : (s.materials.find? (fun mm => mm.id == t.material_id)).isSome =
      true) :
    (stockQty s.stocks t.warehouse_id t.material_id < t.quantity →
      create_stock_transaction s t = ⟨.error .insufficientStock, s, []⟩ ∧
      ApiError.insufficientStock.httpStatus = 400) ∧
    (t.quantity ≤ stockQty s.stocks t.warehouse_id t.material_id →
      (create_stock_transaction s t).response =
        .ok (stockQty s.stocks t.warehouse_id t.material_id - t.quantity) ∧
      stockQty (create_stock_transaction s t).state.stocks
          t.warehouse_id t.material_id =
        stockQty s.stocks t.warehouse_id t.material_id - t.quantity ∧
      (create_stock_transaction s t).state.ledger =
        s.ledger ++ [⟨t.warehouse_id, t.material_id, t.transaction_type,
          t.quantity, none⟩]) := by
  constructor
  · intro hQ
    exact ⟨create_txn_err s t hW hM _
      (applyKind_subtractive_fail _ _ _ hK hQ), rfl⟩
  · intro hQ
    rw [create_txn_ok s t hW hM _ (applyKind_subtractive_ok _ _ _ hK hQ)]
    refine ⟨rfl, ?_, rfl⟩
    rw [stockQty_updateStockQty_self _ _ _ _ (ensured_isSome s t)]

/-- C2 witness: on 100 units, consumption of 130 fails leaving the state
unchanged, and consumption of 30 returns new quantity 70. -/
theorem c2_witness :
    (create_stock_transaction sampleBase ⟨1, 1, .CONSUMPTION, 130⟩ =
      ⟨.error .insufficientStock, sampleBase, []⟩) ∧
    (create_stock_transaction sampleBase ⟨1, 1, .CONSUMPTION, 30⟩).response =
      .ok 70 := by
  constructor
  · exact ((c2_outbound_insufficiency sampleBase ⟨1, 1, .CONSUMPTION, 130⟩
      (Or.inr rfl) (by decide) (by decide)).1 (by decide)).1
  · have h := ((c2_outbound_insufficiency sampleBase ⟨1, 1, .CONSUMPTION, 30⟩
      (Or.inr rfl) (by decide) (by decide)).2 (by decide)).1
    have h2 : stockQty sampleBase.stocks 1 1 - 30 = (70 : Int) := by decide
    rw [h2] at h
    exact h

/-- C3 (counterexample): the all-or-nothing claim fails as stated because
transfer creation never validates item quantities. In a pending transfer
whose first item has quantity −100, processing that item inflates the
working source stock, so the second item of 60 passes its check although
the initial source stock is only 50: completion succeeds and stock moves,
where the claim demands InsufficientStock and no change. -/
theorem c3_counterexample :
    findTransfer sampleNegativeItems.transfers 7 =
      some ⟨7, "TR-2026-00001", 1, 2, .PENDING, [⟨1, -100⟩, ⟨1, 60⟩]⟩ ∧
    ((⟨1, 60⟩ : TransferItem) ∈
      [(⟨1, -100⟩ : TransferItem), ⟨1, 60⟩] ∧
      stockQty sampleNegativeItems.stocks 1 1 < 60) ∧
    (complete_transfer sampleNegativeItems 7).response = .ok () ∧
    (complete_transfer sampleNegativeItems 7).state ≠ sampleNegativeItems :=
  ⟨by decide, ⟨by decide, by decide⟩, rfl, by decide⟩

/-- C3 (amended): for every pending (non-completed) transfer all of whose
item quantities are non-negative, if any item finds no source stock row or
a source quantity below its item quantity, completion fails with
InsufficientStock (HTTP 400) and no stock, ledger or transfer row changes
— all-or-nothing over the whole item set. -/
theorem c3_all_or_nothing_nonneg (s : DBState) (tid : Int) (tr : Transfer)
    (hT : findTransfer s.transfers tid = some tr)
    (hS : tr.status ≠ .COMPLETED)
    (hNN : ∀ item ∈ tr.items, 0 ≤ item.quantity)
    (hbad : ∃ item ∈ tr.items,
      findStock s.stocks tr.from_warehouse_id item.material_id = none ∨
      stockQty s.stocks tr.from_warehouse_id item.material_id <
        item.quantity) :
    complete_transfer s tid = ⟨.error .insufficientStock, s, []⟩ :=
  complete_loop_none s tid tr hT hS
    (completeLoop_none_of_bad tr.from_warehouse_id tr.to_warehouse_id tr.id
      tr.items s.stocks [] s.ledger hNN hbad)

/-- C3 witness: completing a pending transfer of 80 against a source stock
of 70 fails with InsufficientStock and leaves the state untouched. -/
theorem c3_witness :
    complete_transfer sampleShort 7 =
      ⟨.error .insufficientStock, sampleShort, []⟩ :=
  c3_all_or_nothing_nonneg sampleShort 7
    ⟨7, "TR-2026-00001", 1, 2, .PENDING, [⟨1, 80⟩]⟩
    (by decide) (by decide) (by decide)
    ⟨⟨1, 80⟩, by decide, Or.inr (by decide)⟩

/-- C4: completing a transfer whose status is already completed fails with
AlreadyCompleted (HTTP 400) and leaves the whole database state — stock,
ledger and transfer — unchanged, so stock is moved at most once per
transfer. -/
theorem c4_already_completed (s : DBState) (tid : Int) (tr : Transfer)
    (hT : findTransfer s.transfers tid = some tr)
    (hS : tr.status = .COMPLETED) :
    complete_transfer s tid = ⟨.error .alreadyCompleted, s, []⟩ ∧
    ApiError.alreadyCompleted.httpStatus = 400 :=
  ⟨complete_already s tid tr hT hS, rfl⟩

/-- C4 witness: the idempotency guard on a concrete completed transfer. -/
theorem c4_witness :
    complete_transfer sampleCompleted 7 =
      ⟨.error .alreadyCompleted, sampleCompleted, []⟩ :=
  (c4_already_completed sampleCompleted 7
    ⟨7, "TR-2026-00001", 1, 2, .COMPLETED, [⟨1, 50⟩]⟩
    (by decide) rfl).1

/-- C5 (counterexample): transfer creation does not reject identical
source and destination warehouses or an empty item list — with only
warehouse 1 existing, the payload from=1, to=1, items=[] succeeds and the
degenerate transfer is persisted as pending, where the claim demands an
InvalidRequest rejection with nothing persisted. -/
theorem c5_counterexample :
    (create_transfer sampleLow ⟨1, 1, []⟩ 2026 9).response.isOk = true ∧
    (create_transfer sampleLow ⟨1, 1, []⟩ 2026 9).state.transfers =
      [⟨9, "TR-2026-00001", 1, 1, .PENDING, []⟩] :=
  ⟨rfl, by decide⟩

/-- C5 (amended): transfer creation validates only that both warehouses
exist (NotFound with nothing persisted otherwise); it performs no other
validation — identical source and destination, an empty item list and
non-positive item quantities are all accepted and the transfer is
persisted in pending status. -/
theorem c5_create_transfer_validation (s : DBState) (p : TransferCreate)
    (year : Nat) (newId : Int) :
    (s.warehouses.contains p.from_warehouse_id = false →
      create_transfer s p year newId = ⟨.error .notFound, s⟩) ∧
    (s.warehouses.contains p.from_warehouse_id = true →
      s.warehouses.contains p.to_warehouse_id = false →
      create_transfer s p year newId = ⟨.error .notFound, s⟩) ∧
    (s.warehouses.contains p.from_warehouse_id = true →
      s.warehouses.contains p.to_warehouse_id = true →
      (create_transfer s p year newId).response.isOk = true ∧
      (create_transfer s p year newId).state.transfers =
        s.transfers ++ [⟨newId,
          "TR-" ++ toString year ++ "-" ++ pad5 (s.transfers.length + 1),
          p.from_warehouse_id, p.to_warehouse_id, .PENDING,
          p.items.map (fun i => ⟨i.material_id, i.quantity⟩)⟩]) := by
  refine ⟨fun hF => create_transfer_notFound_from s p year newId hF,
    fun hF hT => create_transfer_notFound_to s p year newId hF hT,
    fun hF hT => ?_⟩
  rw [create_transfer_ok s p year newId hF hT]
  exact ⟨rfl, rfl⟩

/-- C5 witness: the amended theorem at a payload with from = to and a
negative item quantity, which is persisted as pending. -/
theorem c5_witness :
    sampleLow.warehouses.contains (1 : Int) = true ∧
    (create_transfer sampleLow ⟨1, 1, [⟨1, -5⟩]⟩ 2026 9).state.transfers =
      [⟨9, "TR-2026-00001", 1, 1, .PENDING, [⟨1, -5⟩]⟩] := by
  refine ⟨by decide, ?_⟩
  have h := (c5_create_transfer_validation sampleLow ⟨1, 1, [⟨1, -5⟩]⟩
    2026 9).2.2 (by decide) (by decide)
  rw [h.2]
  rfl

/-- C6 (counterexample): completing a transfer performs no cache
invalidation at all — a successful completion's effect trace contains the
commit and not a single cache delete or clear_pattern, where the claim
demands invalidation of the warehouse inventory, low-stock and dashboard
keys after every successful stock mutation. -/
theorem c6_counterexample :
    (complete_transfer samplePending 7).response = .ok () ∧
    (complete_transfer samplePending 7).effects = [.commit] ∧
    (complete_transfer samplePending 7).effects.filter
      (fun e => e.isCacheInvalidation) = [] :=
  ⟨rfl, rfl, rfl⟩

/-- C6 (amended): only the stock-transaction endpoint invalidates caches:
on success its effect trace is exactly the commit followed by the delete
of the warehouse inventory key, the delete of the low-stock key and the
clears of the inventory:* and dashboard:* patterns — invalidation strictly
after the commit; transfer completion performs no cache invalidation at
all. -/
theorem c6_invalidation_txn_only (s : DBState) (t : StockTransactionCreate)
    (s2 : DBState) (tid : Int)
    (hOk : (create_stock_transaction s t).response.isOk = true) :
    (create_stock_transaction s t).effects =
      [.commit,
       .cacheDelete (CacheKeys.inventory_warehouse t.warehouse_id),
       .cacheDelete CacheKeys.inventory_low_stock,
       .cacheClearPattern "inventory:*",
       .cacheClearPattern "dashboard:*"] ∧
    (complete_transfer s2 tid).effects.filter
      (fun e => e.isCacheInvalidation) = [] := by
  constructor
  · rcases create_txn_cases s t with ⟨h1, _, _⟩ | ⟨_, h2, _⟩
    · rw [hOk] at h1; cases h1
    · exact h2
  · rcases complete_cases s2 tid with ⟨_, _, h3⟩ | ⟨_, h3, _⟩ <;>
      rw [h3] <;> rfl

/-- C6 witness: the amended cache-invalidation theorem at a concrete
successful purchase and a concrete transfer completion. -/
theorem c6_witness :
    (create_stock_transaction sampleBase ⟨1, 1, .PURCHASE, 5⟩).response.isOk =
      true ∧
    (create_stock_transaction sampleBase ⟨1, 1, .PURCHASE, 5⟩).effects =
      [.commit,
       .cacheDelete (CacheKeys.inventory_warehouse 1),
       .cacheDelete CacheKeys.inventory_low_stock,
       .cacheClearPattern "inventory:*",
       .cacheClearPattern "dashboard:*"] ∧
    (complete_transfer samplePending 7).effects.filter
      (fun e => e.isCacheInvalidation) = [] := by
  have h := c6_invalidation_txn_only sampleBase ⟨1, 1, .PURCHASE, 5⟩
    samplePending 7 rfl
  exact ⟨rfl, h.1, h.2⟩

/-- C7 (counterexample): a successful stock mutation that leaves the
material at or below its minimum creates no Alert row at all — after a
consumption drops material 1 (min 10) to quantity 5 with no open alert
present, the alerts table is still empty, where the claim demands a new
low_stock Alert row. The mutation path only sends notifications. -/
theorem c7_counterexample :
    (create_stock_transaction sampleLow ⟨1, 1, .CONSUMPTION, 35⟩).response =
      .ok 5 ∧
    stockQty (create_stock_transaction sampleLow
      ⟨1, 1, .CONSUMPTION, 35⟩).state.stocks 1 1 ≤ 10 ∧
    hasUnresolvedLowStock sampleLow.alerts 1 = false ∧
    (create_stock_transaction sampleLow
      ⟨1, 1, .CONSUMPTION, 35⟩).state.alerts = [] :=
  ⟨rfl, by decide, rfl, rfl⟩

/-- C7 (amended): stock mutations never create Alert rows (the transaction
endpoint and transfer completion leave the alerts table unchanged; the
low-stock branch only sends notifications). Alert rows come only from the
generate-low-stock sweep, which deduplicates: for a material that already
has an unresolved low_stock alert, the sweep adds no further open
low_stock alert for it. -/
theorem c7_alerts_dedup (s : DBState) :
    (∀ t : StockTransactionCreate,
      (create_stock_transaction s t).state.alerts = s.alerts) ∧
    (∀ tid : Int, (complete_transfer s tid).state.alerts = s.alerts) ∧
    (∀ mid : Int, hasUnresolvedLowStock s.alerts mid = true →
      ∀ a ∈ (generate_low_stock_alerts s).state.alerts,
        isOpenLowStockFor mid a = true → a ∈ s.alerts) := by
  refine ⟨fun t => ?_, fun tid => ?_,
    fun mid hOpen => sweep_no_new_alert_for_open s mid hOpen⟩
  · rcases create_txn_cases s t with ⟨_, h2, _⟩ | ⟨_, _, h3⟩
    · rw [h2]
    · exact h3
  · rcases complete_cases s tid with ⟨_, h2, _⟩ | ⟨_, _, h3⟩
    · rw [h2]
    · exact h3

/-- C7 witness: with material 1 low on stock and one open low_stock alert,
the sweep creates nothing new — every open low_stock alert for material 1
after the sweep was already present. -/
theorem c7_witness :
    hasUnresolvedLowStock sampleAlertOpen.alerts 1 = true ∧
    (generate_low_stock_alerts sampleAlertOpen).state.alerts =
      [⟨"low_stock", "warning", "material", 1, false⟩] ∧
    (∀ a ∈ (generate_low_stock_alerts sampleAlertOpen).state.alerts,
      isOpenLowStockFor 1 a = true → a ∈ sampleAlertOpen.alerts) :=
  ⟨rfl, rfl, (c7_alerts_dedup sampleAlertOpen).2.2 1 rfl⟩

/-- C8 (counterexample): the per-item stock-movement clause fails on
transfers the program admits. A transfer with identical source and
destination warehouse (persistable, per C5) completes successfully with
the source stock unchanged at 50 — the same ORM row is decremented and
then incremented — instead of decreased by its 30-unit item; and a
transfer with two items of the same material completes with the source at
50, so the first item's equation (100 − 30 = 70) fails as well. Both
transfers end with status completed. -/
theorem c8_counterexample :
    ((complete_transfer sampleSelfTransfer 7).response = .ok () ∧
      findTransfer (complete_transfer sampleSelfTransfer 7).state.transfers
        7 = some ⟨7, "TR-2026-00001", 1, 1, .COMPLETED, [⟨1, 30⟩]⟩ ∧
      stockQty (complete_transfer sampleSelfTransfer 7).state.stocks 1 1 =
        50 ∧
      stockQty (complete_transfer sampleSelfTransfer 7).state.stocks 1 1 ≠
        stockQty sampleSelfTransfer.stocks 1 1 - 30) ∧
    ((complete_transfer sampleDupItems 8).response = .ok () ∧
      stockQty (complete_transfer sampleDupItems 8).state.stocks 1 1 ≠
        stockQty sampleDupItems.stocks 1 1 - 30) :=
  ⟨⟨rfl, by decide, by decide, by decide⟩, ⟨rfl, by decide⟩⟩

/-- C8 (amended): a successfully completed transfer whose source and
destination warehouses differ and whose item materials are pairwise
distinct appends exactly one TRANSFER_OUT/TRANSFER_IN ledger pair per
item, each entry carrying the item's quantity and reference_id =
transfer id; the transfer's status becomes completed; and for each item
the source quantity drops and the destination quantity rises by the
item's quantity. -/
theorem c8_completed_transfer_spec (s : DBState) (tid : Int) (tr : Transfer)
    (hT : findTransfer s.transfers tid = some tr)
    (hS : tr.status ≠ .COMPLETED)
    (hFT : tr.from_warehouse_id ≠ tr.to_warehouse_id)
    (hND : (tr.items.map (fun i => i.material_id)).Nodup)
    (hOk : (complete_transfer s tid).response = .ok ()) :
    (complete_transfer s tid).state.ledger =
      s.ledger ++ tr.items.flatMap
        (transferLedgerPair tr.from_warehouse_id tr.to_warehouse_id tr.id) ∧
    findTransfer (complete_transfer s tid).state.transfers tid =
      some ⟨tr.id, tr.transfer_number, tr.from_warehouse_id,
        tr.to_warehouse_id, .COMPLETED, tr.items⟩ ∧
    ∀ item ∈ tr.items,
      stockQty (complete_transfer s tid).state.stocks
          tr.from_warehouse_id item.material_id =
        stockQty s.stocks tr.from_warehouse_id item.material_id -
          item.quantity ∧
      stockQty (complete_transfer s tid).state.stocks
          tr.to_warehouse_id item.material_id =
        stockQty s.stocks tr.to_warehouse_id item.material_id +
          item.quantity := by
  cases hL : completeLoop tr.from_warehouse_id tr.to_warehouse_id tr.id
      tr.items s.stocks [] s.ledger with
  | none =>
    rw [complete_loop_none s tid tr hT hS hL] at hOk
    simp at hOk
  | some triple =>
    rcases triple with ⟨stocks1, pending1, ledger1⟩
    by_cases hD : keysDistinct pending1 = true
    · have hC := complete_loop_some s tid tr stocks1 pending1 ledger1
        hT hS hL hD
      rw [hC]
      refine ⟨?_, ?_, ?_⟩
      · exact completeLoop_ledger _ _ _ _ _ _ _ _ _ _ hL
      · show findTransfer (markCompleted s.transfers tid) tid = _
        rw [findTransfer_markCompleted, hT]
        rfl
      · intro item hmem
        have hq := completeLoop_qty tr.from_warehouse_id tr.to_warehouse_id
          tr.id hFT tr.items s.stocks [] s.ledger stocks1 pending1 ledger1
          hND (by intro r hr; cases hr) hL item.material_id
        rw [List.append_nil] at hq
        rw [itemsQty_eq_of_nodup tr.items item hmem hND] at hq
        exact hq
    · have hSF : complete_transfer s tid = ⟨.error .storageFailure, s, []⟩ := by
        unfold complete_transfer
        rw [hT]
        simp only [beq_eq_false_iff_ne.mpr hS, Bool.false_eq_true, if_false]
        rw [hL]
        simp [hD]
      rw [hSF] at hOk
      simp at hOk

/-- C8 witness: the completed-transfer specification on the 50-unit
transfer from warehouse 1 (70 on hand) to warehouse 2: one ledger pair
with reference_id 7, source drops to 20, destination rises to 50. -/
theorem c8_witness :
    (complete_transfer samplePending 7).response = .ok () ∧
    (complete_transfer samplePending 7).state.ledger =
      [⟨1, 1, .TRANSFER_OUT, 50, some 7⟩, ⟨2, 1, .TRANSFER_IN, 50, some 7⟩] ∧
    stockQty (complete_transfer samplePending 7).state.stocks 1 1 = 20 ∧
    stockQty (complete_transfer samplePending 7).state.stocks 2 1 = 50 := by
  have h := c8_completed_transfer_spec samplePending 7
    ⟨7, "TR-2026-00001", 1, 2, .PENDING, [⟨1, 50⟩]⟩
    (by decide) (by decide) (by decide) (by decide) rfl
  refine ⟨rfl, ?_, ?_, ?_⟩
  · rw [h.1]; rfl
  · have h2 := (h.2.2 ⟨1, 50⟩ (by decide)).1
    rw [h2]; decide
  · have h2 := (h.2.2 ⟨1, 50⟩ (by decide)).2
    rw [h2]; decide

/-- C9: a stock transaction of kind adjustment on an existing warehouse
and material always succeeds with new quantity exactly the requested
value, independent of the prior quantity — an absolute override, not a
delta. -/
theorem c9_adjustment_absolute (s : DBState) (t : StockTransactionCreate)
    (hK : t.transaction_type = .ADJUSTMENT)
    (hW : s.warehouses.contains t.warehouse_id = true)
    (hM : (s.materials.find? (fun mm => mm.id == t.material_id)).isSome =
      true) :
    (create_stock_transaction s t).response = .ok t.quantity ∧
    stockQty (create_stock_transaction s t).state.stocks
      t.warehouse_id t.material_id = t.quantity := by
  rw [create_txn_ok s t hW hM t.quantity (by rw [hK]; rfl)]
  exact ⟨rfl, by
    rw [stockQty_updateStockQty_self _ _ _ _ (ensured_isSome s t)]⟩

/-- C9 witness: adjustment to 5 from two different prior quantities (100
and 40) yields quantity 5 in both cases. -/
theorem c9_witness :
    (create_stock_transaction sampleBase ⟨1, 1, .ADJUSTMENT, 5⟩).response =
      .ok 5 ∧
    (create_stock_transaction sampleLow ⟨1, 1, .ADJUSTMENT, 5⟩).response =
      .ok 5 :=
  ⟨(c9_adjustment_absolute sampleBase ⟨1, 1, .ADJUSTMENT, 5⟩ rfl
      (by decide) (by decide)).1,
   (c9_adjustment_absolute sampleLow ⟨1, 1, .ADJUSTMENT, 5⟩ rfl
      (by decide) (by decide)).1⟩

/-- C10: request validation rejects any stock transaction whose quantity
is below 1 or above 999,999,999 before the handler runs (422, state
unchanged); consequently a valid adjustment that succeeds always sets the
pair's quantity to the requested value, which is at least 1 and therefore
never 0. -/
theorem c10_quantity_validation (s : DBState) (t : StockTransactionCreate) :
    ((t.quantity < 1 ∨ t.quantity > 999999999) →
      t.valid = false ∧
      api_create_stock_transaction s t = ⟨.error .validationError, s, []⟩) ∧
    (t.valid = true → t.transaction_type = .ADJUSTMENT →
      (create_stock_transaction s t).response.isOk = true →
      stockQty (create_stock_transaction s t).state.stocks
          t.warehouse_id t.material_id = t.quantity ∧
      stockQty (create_stock_transaction s t).state.stocks
          t.warehouse_id t.material_id ≠ 0) := by
  constructor
  · intro hr
    have hv : t.valid = false := by
      simp only [StockTransactionCreate.valid, Bool.and_eq_false_iff,
        decide_eq_false_iff_not, not_lt, not_le]
      omega
    refine ⟨hv, ?_⟩
    unfold api_create_stock_transaction
    rw [if_neg (by rw [hv]; exact fun hc => Bool.noConfusion hc)]
  · intro hv hK hOk
    have hq1 : 1 ≤ t.quantity := by
      simp only [StockTransactionCreate.valid, Bool.and_eq_true,
        decide_eq_true_eq] at hv
      omega
    cases hW : s.warehouses.contains t.warehouse_id with
    | false =>
      rw [create_txn_notFound_warehouse s t hW] at hOk
      simp [Except.isOk, Except.toBool] at hOk
    | true =>
      cases hM : (s.materials.find?
          (fun mm => mm.id == t.material_id)).isNone with
      | true =>
        rw [create_txn_notFound_material s t hW hM] at hOk
        simp [Except.isOk, Except.toBool] at hOk
      | false =>
        have hMs : (s.materials.find?
            (fun mm => mm.id == t.material_id)).isSome = true := by
          cases ho : s.materials.find? (fun mm => mm.id == t.material_id)
          · rw [ho] at hM; cases hM
          · rfl
        rw [create_txn_ok s t hW hMs t.quantity (by rw [hK]; rfl)]
        have hqty : stockQty (updateStockQty
            (ensureStock s.stocks t.warehouse_id t.material_id)
            t.warehouse_id t.material_id (fun _ => t.quantity))
            t.warehouse_id t.material_id = t.quantity := by
          rw [stockQty_updateStockQty_self _ _ _ _ (ensured_isSome s t)]
        exact ⟨hqty, by rw [hqty]; omega⟩

/-- C10 witness: an adjustment of quantity 0 is rejected by validation
with the state unchanged, while a valid adjustment of 5 sets a non-zero
quantity. -/
theorem c10_witness :
    ((0 : Int) < 1 ∨ (0 : Int) > 999999999) ∧
    api_create_stock_transaction sampleBase ⟨1, 1, .ADJUSTMENT, 0⟩ =
      ⟨.error .validationError, sampleBase, []⟩ ∧
    (⟨1, 1, .ADJUSTMENT, 5⟩ : StockTransactionCreate).valid = true ∧
    stockQty (create_stock_transaction sampleBase
      ⟨1, 1, .ADJUSTMENT, 5⟩).state.stocks 1 1 ≠ 0 := by
  refine ⟨Or.inl (by decide), ?_, rfl, ?_⟩
  · exact ((c10_quantity_validation sampleBase ⟨1, 1, .ADJUSTMENT, 0⟩).1
      (Or.inl (by decide))).2
  · exact ((c10_quantity_validation sampleBase ⟨1, 1, .ADJUSTMENT, 5⟩).2
      rfl rfl rfl).2

end Claims

end ErgoLab
